import Mathlib

/-!
Shallow embedding of the albert qalculate plugin (src/src/plugin.cpp,
src/src/plugin.h).

The calculator engine (libqalculate) is an external dependency; it is
modelled as a record of pure functions (`Calculator`).  `MathStructure` is
treated as an opaque payload: the plugin never inspects it except through
engine calls (`format`, `print`, `isApproximate`), which are fields of the
`Calculator` record.

Stateful aspects are made explicit:
  * the plugin's shared members (`eo`, the engine precision, the persisted
    settings) form a `PluginState`, threaded through the handlers;
  * lock acquisition/release and engine/option accesses are recorded as an
    event trace (`Ev`), mirroring the `lock_guard` scopes of the source;
  * which parse/evaluation options flow into `unlocalizeExpression` and
    `calculate` is recorded in a `CallLog`;
  * the host-side query validity flag (`QueryContext::isValid`) is modelled
    by the value it has when the caller checks it after the evaluation call
    returns (plugin.cpp line 202).
-/

namespace QalcPlugin

/-- Parse options of the engine, restricted to the fields the plugin touches
(plugin.cpp lines 52-57, 93, 103, 122, 131, 194-196).  The enum-valued
fields (`angle_unit`, `parsing_mode`) are stored as the integers the code
casts them to. -/
structure ParseOptions where
  angle_unit : Nat
  functions_enabled : Bool
  limit_implicit_multiplication : Bool
  parsing_mode : Nat
  units_enabled : Bool
  unknowns_enabled : Bool
deriving DecidableEq, Repr

/-- Evaluation options of the engine, restricted to the fields the plugin
touches (plugin.cpp lines 48-57). -/
structure EvaluationOptions where
  auto_post_conversion : Nat
  structuring : Nat
  parse_options : ParseOptions
deriving DecidableEq, Repr

/-- Print options of the engine, restricted to the fields the plugin sets
(plugin.cpp lines 60-64). -/
structure PrintOptions where
  indicate_infinite_series : Bool
  interval_display : Nat
  lower_case_e : Bool
  use_unicode_signs : Bool
deriving DecidableEq, Repr

/-- The engine's computed structure, opaque to the plugin: the plugin only
passes it back to engine calls. -/
structure MathStructure where
  payload : Nat
deriving DecidableEq, Repr

/-- The external calculator engine, modelled as pure functions.
`calculate` yields the structure the engine stores into `mstruct`
(plugin.cpp line 166); `messagesOf` yields the engine's diagnostic message
queue accumulated by that run, in order, as drained by plugin.cpp lines
172-178 (empty list = no message recorded). -/
structure Calculator where
  unlocalizeExpression : String → ParseOptions → String
  calculate : String → EvaluationOptions → MathStructure
  messagesOf : String → EvaluationOptions → List String
  format : MathStructure → PrintOptions → MathStructure
  print : MathStructure → PrintOptions → String
  isApproximate : MathStructure → Bool

/-- Persisted settings storage touched by the plugin (QSettings keys at
plugin.cpp lines 19-28). -/
structure Settings where
  angle_unit : Nat
  parsing_mode : Nat
  precision : Int
  units_in_global_query : Bool
  functions_in_global_query : Bool
deriving DecidableEq, Repr

/-- The plugin's shared mutable members (plugin.h lines 33-37): the shared
`EvaluationOptions eo`, the engine's precision (held by `qalc`), and the
persisted settings.  `PrintOptions po` is never mutated after
initialization, so it is passed separately where needed. -/
structure PluginState where
  eo : EvaluationOptions
  precision : Int
  settings : Settings
deriving DecidableEq, Repr

/-- A query context as seen by the handler (albert QueryContext): raw text,
trigger (empty string in ambient/global mode), and the value the validity
flag has when the handler checks it after the evaluation call returns
(plugin.cpp line 202). -/
structure QueryContext where
  query : String
  trigger : String
  validAfterRun : Bool
deriving DecidableEq, Repr

/-- Effect of a result action when triggered (albert system utilities). -/
inductive ActionEffect
  | setClipboardText (s : String)
  | openUrl (u : String)
deriving DecidableEq, Repr

/-- One action of a result item: id, label, effect. -/
structure Action where
  id : String
  label : String
  effect : ActionEffect
deriving DecidableEq, Repr

/-- An albert StandardItem as built by the plugin: id, text, subtext,
actions, optional input-action text.  (The icon factory is constant,
`makeIcon`, and is omitted.) -/
structure Item where
  id : String
  text : String
  subtext : String
  actions : List Action
  inputActionText : Option String
deriving DecidableEq, Repr

/-- A scored result record (albert RankItem). Scores are the literals 1.0
and .0 of the source, modelled as rationals. -/
structure RankItem where
  item : Item
  score : ℚ
deriving DecidableEq, Repr

/-- The engine manual URL (plugin.cpp line 18). -/
def URL_MANUAL : String := "https://qalculate.github.io/manual/index.html"

/-- Events recorded by the instrumented model: acquisitions/releases of the
single `qalculate_mutex`, evaluation calls into the engine, mutations of
the shared `eo`, mutations of the engine precision, and writes to persisted
settings. -/
inductive Ev
  | lockAcquire
  | lockRelease
  | engineCall
  | optionsWrite
  | precisionWrite
  | settingsWrite
deriving DecidableEq, Repr

/-- Which options flowed into the two engine calls of one evaluation run:
the parse options passed to `unlocalizeExpression` (plugin.cpp line 163)
and the evaluation options passed to `calculate` (line 166). -/
structure CallLog where
  unlocalizeOpts : ParseOptions
  calculateOpts : EvaluationOptions
deriving DecidableEq, Repr

/-- `Plugin::runQalculateLocked` (plugin.cpp lines 159-181): unlocalize the
query text using the shared member `eo`'s parse options (line 163 — NOT the
per-call parameter), run `calculate` with the per-call options, then, if
the engine recorded any message, drain the queue and return the message
texts; otherwise return the computed structure.  The cancellable polling
loop (lines 167-170) only requests an engine-side abort; it does not change
which variant is returned, so the returned variant is a function of the
query text and the options alone.  The `CallLog` records the option flow. -/
def runQalculateLocked (c : Calculator) (sharedEo : EvaluationOptions)
    (ctx : QueryContext) (eo_ : EvaluationOptions) :
    (List String ⊕ MathStructure) × CallLog :=
  let expression := c.unlocalizeExpression ctx.query sharedEo.parse_options
  let mstruct := c.calculate expression eo_
  let msgs := c.messagesOf expression eo_
  (if msgs.isEmpty then Sum.inr mstruct else Sum.inl msgs,
   ⟨sharedEo.parse_options, eo_⟩)

/-- `Plugin::buildItem` (plugin.cpp lines 137-157): format the structure,
print it, and build the success item with the two copy actions. -/
def buildItem (c : Calculator) (po : PrintOptions) (query : String)
    (mstruct : MathStructure) : Item :=
  let m := c.format mstruct po
  let result := c.print m po
  { id := "qalc-res"
  , text := result
  , subtext :=
      if c.isApproximate m then "Approximate result of " ++ query
      else "Result of " ++ query
  , actions :=
      [ ⟨"cpr", "Copy result to clipboard", ActionEffect.setClipboardText result⟩
      , ⟨"cpe", "Copy equation to clipboard",
          ActionEffect.setClipboardText (query ++ " = " ++ result)⟩ ]
  , inputActionText := none }

/-- The error item built in the triggered-mode error branch of
`Plugin::rankItems` (plugin.cpp lines 208-220). -/
def errorItem (msgs : List String) : Item :=
  { id := "qalc-err"
  , text := "Evaluation error."
  , subtext := String.intercalate ", " msgs
  , actions := [⟨"manual", "Visit documentation", ActionEffect.openUrl URL_MANUAL⟩]
  , inputActionText := some "" }

/-- Widening of the option copy in triggered mode (plugin.cpp lines
192-197): `eo_` is a value copy of the shared `eo` whose parse options get
`functions_enabled`, `units_enabled` and `unknowns_enabled` set to true. -/
def widenForTrigger (eo : EvaluationOptions) : EvaluationOptions :=
  { eo with parse_options :=
      { eo.parse_options with
          functions_enabled := true
        , units_enabled := true
        , unknowns_enabled := true } }

/-- `QString::trimmed` (plugin.cpp line 187), modelled over the character
list: strip leading and trailing whitespace. -/
def trimmed (s : String) : String :=
  String.mk
    (((s.toList.dropWhile Char.isWhitespace).reverse.dropWhile
        Char.isWhitespace).reverse)

/-- The per-call option copy of `Plugin::rankItems` (plugin.cpp lines
191-197): `auto eo_ = eo`, widened by the three flag writes when a trigger
is present. -/
def effectiveOptions (p : PluginState) (ctx : QueryContext) : EvaluationOptions :=
  if ctx.trigger.isEmpty then p.eo else widenForTrigger p.eo

/-- Everything one call of the instrumented `rankItems` yields: the result
records, the event trace, the option flow of the evaluation run (`none`
when no evaluation was attempted), and the plugin state after the call. -/
structure RankOutcome where
  results : List RankItem
  trace : List Ev
  callLog : Option CallLog
  state : PluginState
deriving DecidableEq, Repr

/-- `Plugin::rankItems` (plugin.cpp lines 183-224), instrumented.  Empty
trimmed query: return no results without touching lock or engine.
Otherwise take a value copy `eo_` of the shared options, widened when a
trigger is present; acquire the mutex; run the evaluation; release the
mutex on scope exit.  After the call: an invalidated query yields no
results; a computed structure yields one success record with score 1.0;
messages yield one error record with score 0.0 in triggered mode and
nothing in ambient mode.  The shared state is never written (the source
only reads `eo`), so the returned state is the input state. -/
def rankItemsFull (c : Calculator) (po : PrintOptions) (p : PluginState)
    (ctx : QueryContext) : RankOutcome :=
  let t := trimmed ctx.query
  if t.isEmpty then
    ⟨[], [], none, p⟩
  else
    let eo_ := effectiveOptions p ctx
    let run := runQalculateLocked c p.eo ctx eo_
    let trace := [Ev.lockAcquire, Ev.engineCall, Ev.lockRelease]
    let results :=
      if !ctx.validAfterRun then []
      else
        match run.1 with
        | Sum.inr mstruct => [⟨buildItem c po t mstruct, 1⟩]
        | Sum.inl msgs =>
            if !ctx.trigger.isEmpty then [⟨errorItem msgs, 0⟩] else []
    ⟨results, trace, some run.2, p⟩

/-- The angle-unit combo-box handler (plugin.cpp lines 88-94): persist the
new value to settings, then, under `qalculate_mutex`, write the shared
`eo.parse_options.angle_unit`.  Returns the new state and the event
trace. -/
def onAngleUnitChanged (p : PluginState) (index : Nat) : PluginState × List Ev :=
  ( { p with
        settings := { p.settings with angle_unit := index }
      , eo := { p.eo with parse_options :=
          { p.eo.parse_options with angle_unit := index } } }
  , [Ev.settingsWrite, Ev.lockAcquire, Ev.optionsWrite, Ev.lockRelease] )

/-- The parsing-mode combo-box handler (plugin.cpp lines 98-104). -/
def onParsingModeChanged (p : PluginState) (index : Nat) : PluginState × List Ev :=
  ( { p with
        settings := { p.settings with parsing_mode := index }
      , eo := { p.eo with parse_options :=
          { p.eo.parse_options with parsing_mode := index } } }
  , [Ev.settingsWrite, Ev.lockAcquire, Ev.optionsWrite, Ev.lockRelease] )

/-- The precision spin-box handler (plugin.cpp lines 108-114): persist,
then, under `qalculate_mutex`, set the engine precision. -/
def onPrecisionChanged (p : PluginState) (value : Int) : PluginState × List Ev :=
  ( { p with
        settings := { p.settings with precision := value }
      , precision := value }
  , [Ev.settingsWrite, Ev.lockAcquire, Ev.precisionWrite, Ev.lockRelease] )

/-- The units-in-global-query check-box handler (plugin.cpp lines
118-123). -/
def onUnitsToggled (p : PluginState) (checked : Bool) : PluginState × List Ev :=
  ( { p with
        settings := { p.settings with units_in_global_query := checked }
      , eo := { p.eo with parse_options :=
          { p.eo.parse_options with units_enabled := checked } } }
  , [Ev.settingsWrite, Ev.lockAcquire, Ev.optionsWrite, Ev.lockRelease] )

/-- The functions-in-global-query check-box handler (plugin.cpp lines
127-132). -/
def onFunctionsToggled (p : PluginState) (checked : Bool) : PluginState × List Ev :=
  ( { p with
        settings := { p.settings with functions_in_global_query := checked }
      , eo := { p.eo with parse_options :=
          { p.eo.parse_options with functions_enabled := checked } } }
  , [Ev.settingsWrite, Ev.lockAcquire, Ev.optionsWrite, Ev.lockRelease] )

/-- Scan of an event trace with the current hold-depth of the single
`qalculate_mutex`: acquisitions and releases must balance, and every engine
call, shared-options write and precision write must happen while the mutex
is held (depth nonzero).  Settings writes are unconstrained (the source
performs them before taking the lock). -/
def lockGuardedAux : Nat → List Ev → Bool
  | d, [] => d == 0
  | d, Ev.lockAcquire :: rest => lockGuardedAux (d + 1) rest
  | d, Ev.lockRelease :: rest => d != 0 && lockGuardedAux (d - 1) rest
  | d, Ev.engineCall :: rest => d != 0 && lockGuardedAux d rest
  | d, Ev.optionsWrite :: rest => d != 0 && lockGuardedAux d rest
  | d, Ev.precisionWrite :: rest => d != 0 && lockGuardedAux d rest
  | d, Ev.settingsWrite :: rest => lockGuardedAux d rest

/-- A trace is well-locked when the scan from depth 0 succeeds. -/
def lockGuarded (t : List Ev) : Bool := lockGuardedAux 0 t

/-! ### Concrete instances used by witnesses and counterexamples -/

/-- A concrete engine whose runs record no diagnostic message: every
expression evaluates to an exact structure printed as "4". -/
def calcOk : Calculator where
  unlocalizeExpression := fun q _ => q
  calculate := fun _ _ => ⟨4⟩
  messagesOf := fun _ _ => []
  format := fun m _ => m
  print := fun _ _ => "4"
  isApproximate := fun _ => false

/-- A concrete engine whose runs record one diagnostic message, as for the
malformed query "2+". -/
def calcErr : Calculator where
  unlocalizeExpression := fun q _ => q
  calculate := fun _ _ => ⟨0⟩
  messagesOf := fun _ _ => ["calculation was aborted"]
  format := fun m _ => m
  print := fun _ _ => "0"
  isApproximate := fun _ => false

/-- Print options as set at initialization (plugin.cpp lines 60-64). -/
def po0 : PrintOptions := ⟨true, 0, true, true⟩

/-- Parse options under the default persisted settings (plugin.cpp lines
52-57 with the DEF_ defaults): radians, conventional parsing, functions
and units and unknowns disabled, limited implicit multiplication. -/
def parse0 : ParseOptions := ⟨1, false, true, 0, false, false⟩

/-- Evaluation options under the default persisted settings. -/
def eo0 : EvaluationOptions := ⟨0, 0, parse0⟩

/-- Default persisted settings (plugin.cpp lines 19-28). -/
def settings0 : Settings := ⟨1, 0, 16, false, false⟩

/-- Plugin state right after initialization with default settings. -/
def p0 : PluginState := ⟨eo0, 16, settings0⟩

/-! ### Claim theorems -/

/-- Claim C1: one evaluation run yields exactly one of the two variants —
the ordered drained message list when the engine recorded any diagnostic
message (the computed structure being discarded), the computed structure
otherwise; never both and never neither. -/
theorem run_outcome_exactly_one (c : Calculator) (sharedEo eo_ : EvaluationOptions)
    (ctx : QueryContext) :
    (((runQalculateLocked c sharedEo ctx eo_).1 =
        Sum.inl (c.messagesOf (c.unlocalizeExpression ctx.query sharedEo.parse_options) eo_) ∧
        c.messagesOf (c.unlocalizeExpression ctx.query sharedEo.parse_options) eo_ ≠ []) ∨
      ((runQalculateLocked c sharedEo ctx eo_).1 =
        Sum.inr (c.calculate (c.unlocalizeExpression ctx.query sharedEo.parse_options) eo_) ∧
        c.messagesOf (c.unlocalizeExpression ctx.query sharedEo.parse_options) eo_ = [])) ∧
    (runQalculateLocked c sharedEo ctx eo_).1.isLeft
      = !(runQalculateLocked c sharedEo ctx eo_).1.isRight := by
  constructor
  · by_cases h : c.messagesOf (c.unlocalizeExpression ctx.query sharedEo.parse_options) eo_ = []
    · exact Or.inr ⟨by simp [runQalculateLocked, h], h⟩
    · exact Or.inl ⟨by simp [runQalculateLocked, h], h⟩
  · rcases (runQalculateLocked c sharedEo ctx eo_).1 with _ | _ <;> rfl

/-- Claim C2 counterexample: a non-empty triggered-mode query whose
validity flag is false when the evaluation returns produces zero records,
so "exactly one record for every non-empty explicit-mode query" fails as
stated. -/
theorem explicit_single_record_cex :
    (trimmed "2+2").isEmpty = false ∧ ("=" : String).isEmpty = false ∧
    (rankItemsFull calcOk po0 p0 ⟨"2+2", "=", false⟩).results = [] := by decide

/-- Claim C2 (amended): for every non-empty (after trimming) query handled
in explicit/triggered mode whose validity flag is still true when the
evaluation call returns, the handler returns exactly one record — a
success record (id "qalc-res", score 1) or an error record (id "qalc-err",
score 0) — never zero and never both. -/
theorem explicit_valid_single_record (c : Calculator) (po : PrintOptions)
    (p : PluginState) (ctx : QueryContext) (ht : ctx.trigger.isEmpty = false)
    (hq : (trimmed ctx.query).isEmpty = false) (hv : ctx.validAfterRun = true) :
    (rankItemsFull c po p ctx).results.map (fun r => (r.item.id, r.score))
        = [("qalc-res", (1 : ℚ))] ∨
    (rankItemsFull c po p ctx).results.map (fun r => (r.item.id, r.score))
        = [("qalc-err", (0 : ℚ))] := by
  rcases hsum : (runQalculateLocked c p.eo ctx (effectiveOptions p ctx)).1 with msgs | m
  · exact Or.inr (by simp [rankItemsFull, hq, hv, ht, hsum, errorItem])
  · exact Or.inl (by simp [rankItemsFull, hq, hv, ht, hsum, buildItem])

/-- Claim C2 witness: the amended statement at a concrete valid explicit
query. -/
theorem explicit_valid_single_record_witness :
    (rankItemsFull calcOk po0 p0 ⟨"2+2", "=", true⟩).results.map
        (fun r => (r.item.id, r.score)) = [("qalc-res", (1 : ℚ))] ∨
    (rankItemsFull calcOk po0 p0 ⟨"2+2", "=", true⟩).results.map
        (fun r => (r.item.id, r.score)) = [("qalc-err", (0 : ℚ))] :=
  explicit_valid_single_record calcOk po0 p0 ⟨"2+2", "=", true⟩
    (by decide) (by decide) rfl

/-- Claim C3: in ambient/global mode (empty trigger) an evaluation that
ends in the error variant produces zero result records. -/
theorem ambient_error_suppressed (c : Calculator) (po : PrintOptions)
    (p : PluginState) (ctx : QueryContext) (ht : ctx.trigger.isEmpty = true)
    (he : ((runQalculateLocked c p.eo ctx (effectiveOptions p ctx)).1).isLeft = true) :
    (rankItemsFull c po p ctx).results = [] := by
  by_cases hq : (trimmed ctx.query).isEmpty
  · simp [rankItemsFull, hq]
  · by_cases hv : ctx.validAfterRun
    · rcases hsum : (runQalculateLocked c p.eo ctx (effectiveOptions p ctx)).1 with msgs | m
      · simp [rankItemsFull, hq, hv, ht, hsum]
      · rw [hsum] at he; simp at he
    · simp [rankItemsFull, hq, hv]

/-- Claim C3 witness: a concrete erroring ambient query yields no
records. -/
theorem ambient_error_suppressed_witness :
    (rankItemsFull calcErr po0 p0 ⟨"hello world", "", true⟩).results = [] :=
  ambient_error_suppressed calcErr po0 p0 ⟨"hello world", "", true⟩
    (by decide) (by decide)

/-- Claim C4: a query whose validity flag is false when the evaluation
call returns produces zero records, and the Evaluator itself discards
nothing — its returned variant does not depend on the validity flag. -/
theorem invalidated_query_discarded_by_caller (c : Calculator)
    (po : PrintOptions) (p : PluginState) (ctx : QueryContext) (b : Bool)
    (eo_ : EvaluationOptions) (hv : ctx.validAfterRun = false) :
    (rankItemsFull c po p ctx).results = [] ∧
    (runQalculateLocked c p.eo ⟨ctx.query, ctx.trigger, b⟩ eo_).1 =
      (runQalculateLocked c p.eo ctx eo_).1 := by
  refine ⟨?_, rfl⟩
  by_cases hq : (trimmed ctx.query).isEmpty <;> simp [rankItemsFull, hq, hv]

/-- Claim C4 witness: a concrete invalidated explicit query on an engine
that did compute a structure yields no records. -/
theorem invalidated_query_discarded_by_caller_witness :
    (rankItemsFull calcOk po0 p0 ⟨"40+2", "=", false⟩).results = [] ∧
    (runQalculateLocked calcOk p0.eo ⟨"40+2", "=", true⟩ eo0).1 =
      (runQalculateLocked calcOk p0.eo ⟨"40+2", "=", false⟩ eo0).1 :=
  invalidated_query_discarded_by_caller calcOk po0 p0 ⟨"40+2", "=", false⟩
    true eo0 rfl

/-- Claim C5: in explicit/triggered mode the options passed to the engine
are a value copy of the shared configuration with `functions_enabled`,
`units_enabled` and `unknowns_enabled` all set to true and every other
field unchanged, and the shared plugin state (shared `eo`, precision,
persisted settings) is left unchanged by the evaluation. -/
theorem explicit_options_widened_frame (c : Calculator) (po : PrintOptions)
    (p : PluginState) (ctx : QueryContext) (ht : ctx.trigger.isEmpty = false)
    (hq : (trimmed ctx.query).isEmpty = false) :
    (rankItemsFull c po p ctx).callLog
        = some ⟨p.eo.parse_options, widenForTrigger p.eo⟩
    ∧ (widenForTrigger p.eo).parse_options.functions_enabled = true
    ∧ (widenForTrigger p.eo).parse_options.units_enabled = true
    ∧ (widenForTrigger p.eo).parse_options.unknowns_enabled = true
    ∧ (widenForTrigger p.eo).parse_options.angle_unit
        = p.eo.parse_options.angle_unit
    ∧ (widenForTrigger p.eo).parse_options.parsing_mode
        = p.eo.parse_options.parsing_mode
    ∧ (widenForTrigger p.eo).parse_options.limit_implicit_multiplication
        = p.eo.parse_options.limit_implicit_multiplication
    ∧ (widenForTrigger p.eo).auto_post_conversion = p.eo.auto_post_conversion
    ∧ (widenForTrigger p.eo).structuring = p.eo.structuring
    ∧ (rankItemsFull c po p ctx).state = p := by
  refine ⟨?_, rfl, rfl, rfl, rfl, rfl, rfl, rfl, rfl, ?_⟩ <;>
    simp [rankItemsFull, runQalculateLocked, effectiveOptions, hq, ht]

/-- Claim C5 witness: the widened-copy and frame statement at a concrete
triggered query. -/
theorem explicit_options_widened_frame_witness :
    (rankItemsFull calcOk po0 p0 ⟨"2*3", "=", true⟩).callLog
        = some ⟨p0.eo.parse_options, widenForTrigger p0.eo⟩
    ∧ (widenForTrigger p0.eo).parse_options.functions_enabled = true
    ∧ (widenForTrigger p0.eo).parse_options.units_enabled = true
    ∧ (widenForTrigger p0.eo).parse_options.unknowns_enabled = true
    ∧ (widenForTrigger p0.eo).parse_options.angle_unit
        = p0.eo.parse_options.angle_unit
    ∧ (widenForTrigger p0.eo).parse_options.parsing_mode
        = p0.eo.parse_options.parsing_mode
    ∧ (widenForTrigger p0.eo).parse_options.limit_implicit_multiplication
        = p0.eo.parse_options.limit_implicit_multiplication
    ∧ (widenForTrigger p0.eo).auto_post_conversion = p0.eo.auto_post_conversion
    ∧ (widenForTrigger p0.eo).structuring = p0.eo.structuring
    ∧ (rankItemsFull calcOk po0 p0 ⟨"2*3", "=", true⟩).state = p0 :=
  explicit_options_widened_frame calcOk po0 p0 ⟨"2*3", "=", true⟩
    (by decide) (by decide)

/-- Claim C6: a successful evaluation produces exactly one record with the
formatted structure as displayed text, title "Result of {query}" or
"Approximate result of {query}" according to the engine's approximate
flag, relevance 1.0, and exactly two actions — copy the result, and copy
the equation "{query} = {result}". -/
theorem success_record_shape (c : Calculator) (po : PrintOptions)
    (p : PluginState) (ctx : QueryContext)
    (hq : (trimmed ctx.query).isEmpty = false) (hv : ctx.validAfterRun = true)
    (hm : c.messagesOf (c.unlocalizeExpression ctx.query p.eo.parse_options)
            (effectiveOptions p ctx) = []) :
    (rankItemsFull c po p ctx).results =
      [⟨{ id := "qalc-res"
        , text := c.print (c.format (c.calculate
            (c.unlocalizeExpression ctx.query p.eo.parse_options)
            (effectiveOptions p ctx)) po) po
        , subtext :=
            if c.isApproximate (c.format (c.calculate
                (c.unlocalizeExpression ctx.query p.eo.parse_options)
                (effectiveOptions p ctx)) po)
            then "Approximate result of " ++ trimmed ctx.query
            else "Result of " ++ trimmed ctx.query
        , actions :=
            [ ⟨"cpr", "Copy result to clipboard",
                ActionEffect.setClipboardText (c.print (c.format (c.calculate
                  (c.unlocalizeExpression ctx.query p.eo.parse_options)
                  (effectiveOptions p ctx)) po) po)⟩
            , ⟨"cpe", "Copy equation to clipboard",
                ActionEffect.setClipboardText (trimmed ctx.query ++ " = "
                  ++ c.print (c.format (c.calculate
                    (c.unlocalizeExpression ctx.query p.eo.parse_options)
                    (effectiveOptions p ctx)) po) po)⟩ ]
        , inputActionText := none }, 1⟩] := by
  simp [rankItemsFull, runQalculateLocked, buildItem, hq, hv, hm]

/-- Claim C6 witness: the success-record statement at the concrete query
"2+2" evaluating to "4". -/
theorem success_record_shape_witness :
    (rankItemsFull calcOk po0 p0 ⟨"2+2", "=", true⟩).results =
      [⟨{ id := "qalc-res"
        , text := calcOk.print (calcOk.format (calcOk.calculate
            (calcOk.unlocalizeExpression "2+2" p0.eo.parse_options)
            (effectiveOptions p0 ⟨"2+2", "=", true⟩)) po0) po0
        , subtext :=
            if calcOk.isApproximate (calcOk.format (calcOk.calculate
                (calcOk.unlocalizeExpression "2+2" p0.eo.parse_options)
                (effectiveOptions p0 ⟨"2+2", "=", true⟩)) po0)
            then "Approximate result of " ++ trimmed "2+2"
            else "Result of " ++ trimmed "2+2"
        , actions :=
            [ ⟨"cpr", "Copy result to clipboard",
                ActionEffect.setClipboardText (calcOk.print (calcOk.format
                  (calcOk.calculate
                    (calcOk.unlocalizeExpression "2+2" p0.eo.parse_options)
                    (effectiveOptions p0 ⟨"2+2", "=", true⟩)) po0) po0)⟩
            , ⟨"cpe", "Copy equation to clipboard",
                ActionEffect.setClipboardText (trimmed "2+2" ++ " = "
                  ++ calcOk.print (calcOk.format (calcOk.calculate
                    (calcOk.unlocalizeExpression "2+2" p0.eo.parse_options)
                    (effectiveOptions p0 ⟨"2+2", "=", true⟩)) po0) po0)⟩ ]
        , inputActionText := none }, 1⟩] :=
  success_record_shape calcOk po0 p0 ⟨"2+2", "=", true⟩ (by decide) rfl rfl

/-- Claim C7 counterexample: the error record's title is the source string
"Evaluation error." (with a trailing period), not "Evaluation error" as
the claim states. -/
theorem error_record_title_cex :
    (rankItemsFull calcErr po0 p0 ⟨"2+", "=", true⟩).results.map
        (fun r => r.item.text) = ["Evaluation error."]
    ∧ ("Evaluation error." : String) ≠ "Evaluation error" := by decide

/-- Claim C7 (amended): an erroring evaluation in explicit mode produces
exactly one record with title "Evaluation error." (trailing period as in
the source), subtitle the error messages joined by ", " in order,
relevance 0.0, and exactly one action opening the engine's manual URL. -/
theorem error_record_shape (c : Calculator) (po : PrintOptions)
    (p : PluginState) (ctx : QueryContext) (ht : ctx.trigger.isEmpty = false)
    (hq : (trimmed ctx.query).isEmpty = false) (hv : ctx.validAfterRun = true)
    (hm : (c.messagesOf (c.unlocalizeExpression ctx.query p.eo.parse_options)
            (effectiveOptions p ctx)).isEmpty = false) :
    (rankItemsFull c po p ctx).results =
      [⟨{ id := "qalc-err"
        , text := "Evaluation error."
        , subtext := String.intercalate ", "
            (c.messagesOf (c.unlocalizeExpression ctx.query p.eo.parse_options)
              (effectiveOptions p ctx))
        , actions := [⟨"manual", "Visit documentation",
            ActionEffect.openUrl URL_MANUAL⟩]
        , inputActionText := some "" }, 0⟩] := by
  simp [rankItemsFull, runQalculateLocked, errorItem, hq, hv, ht, hm]

/-- Claim C7 witness: the amended error-record statement at the concrete
malformed query "2+". -/
theorem error_record_shape_witness :
    (rankItemsFull calcErr po0 p0 ⟨"2+", "=", true⟩).results =
      [⟨{ id := "qalc-err"
        , text := "Evaluation error."
        , subtext := String.intercalate ", "
            (calcErr.messagesOf
              (calcErr.unlocalizeExpression "2+" p0.eo.parse_options)
              (effectiveOptions p0 ⟨"2+", "=", true⟩))
        , actions := [⟨"manual", "Visit documentation",
            ActionEffect.openUrl URL_MANUAL⟩]
        , inputActionText := some "" }, 0⟩] :=
  error_record_shape calcErr po0 p0 ⟨"2+", "=", true⟩ (by decide) (by decide)
    rfl rfl

/-- Claim C8: an empty or whitespace-only query produces no records, takes
no lock, and never calls the engine, in both modes. -/
theorem empty_query_no_evaluation (c : Calculator) (po : PrintOptions)
    (p : PluginState) (ctx : QueryContext)
    (hq : (trimmed ctx.query).isEmpty = true) :
    rankItemsFull c po p ctx = ⟨[], [], none, p⟩ := by
  simp [rankItemsFull, hq]

/-- Claim C8 witness: a whitespace-only query in triggered mode. -/
theorem empty_query_no_evaluation_witness :
    rankItemsFull calcOk po0 p0 ⟨"   ", "=", true⟩ = ⟨[], [], none, p0⟩ :=
  empty_query_no_evaluation calcOk po0 p0 ⟨"   ", "=", true⟩ (by decide)

/-- Claim C9: every engine call, shared-options write and precision write —
in the query path and in all five configuration handlers — happens while
the single `qalculate_mutex` is held, with balanced acquire/release; the
mutex's mutual exclusion then serializes all engine access process-wide. -/
theorem engine_access_serialized (c : Calculator) (po : PrintOptions)
    (p : PluginState) (ctx : QueryContext) (i j : Nat) (v : Int)
    (b1 b2 : Bool) :
    lockGuarded (rankItemsFull c po p ctx).trace = true
    ∧ lockGuarded (onAngleUnitChanged p i).2 = true
    ∧ lockGuarded (onParsingModeChanged p j).2 = true
    ∧ lockGuarded (onPrecisionChanged p v).2 = true
    ∧ lockGuarded (onUnitsToggled p b1).2 = true
    ∧ lockGuarded (onFunctionsToggled p b2).2 = true := by
  refine ⟨?_, rfl, rfl, rfl, rfl, rfl⟩
  by_cases hq : (trimmed ctx.query).isEmpty <;>
    simp [rankItemsFull, hq, lockGuarded, lockGuardedAux]

/-- Claim C10: the unlocalization step of a triggered-mode evaluation uses
the shared (configured, un-widened) parse options while the widened copy
is what goes to the calculate call, so whenever ambient functions are
disabled the two option sets of the same call differ. -/
theorem unlocalize_uses_shared_parse_options (c : Calculator)
    (po : PrintOptions) (p : PluginState) (ctx : QueryContext)
    (ht : ctx.trigger.isEmpty = false)
    (hq : (trimmed ctx.query).isEmpty = false) :
    (rankItemsFull c po p ctx).callLog
        = some ⟨p.eo.parse_options, widenForTrigger p.eo⟩
    ∧ (p.eo.parse_options.functions_enabled = false →
        p.eo.parse_options ≠ (widenForTrigger p.eo).parse_options) := by
  constructor
  · simp [rankItemsFull, runQalculateLocked, effectiveOptions, hq, ht]
  · intro hf hEq
    have hfun := congrArg ParseOptions.functions_enabled hEq
    rw [hf] at hfun
    simp [widenForTrigger] at hfun

/-- Claim C10 witness: with the default configuration (ambient functions
disabled), the option sets used for unlocalization and calculation in one
triggered call are distinct. -/
theorem unlocalize_uses_shared_parse_options_witness :
    (rankItemsFull calcOk po0 p0 ⟨"sin(1)", "=", true⟩).callLog
        = some ⟨p0.eo.parse_options, widenForTrigger p0.eo⟩
    ∧ (p0.eo.parse_options.functions_enabled = false →
        p0.eo.parse_options ≠ (widenForTrigger p0.eo).parse_options) :=
  unlocalize_uses_shared_parse_options calcOk po0 p0 ⟨"sin(1)", "=", true⟩
    (by decide) (by decide)

end QalcPlugin

